import Mathlib

/-!
Shallow embedding of the taskanov task tracker (Python sources under
src/taskanov), covering the timer state machine of the two backends
(LocalJsonBackend, GoogleBackend), the interval-recording helper
`_write_time_slot`, the `ensure` operation, the TUI filtering functions,
and the background TickerNotifier loop.

Timestamps (Python floats used only for ordering and equality here) are
embedded as integers.  Each call of `_save_timer()` in the Python source
is modelled by appending the timer state persisted at that moment to a
`snapshots` list, so that every persisted snapshot is observable in the
model.  Fallible external calls (Google calendar writes) are modelled by
an explicit success flag together with `Except`.
-/

namespace Taskanov

/-- Modelled from the spec: the `Task` record of `backends/base.py`, a file
absent from the sources (only its importers are present).  Fields follow
spec section 3 and every construction site (`Task(id=…, title=…, done=…,
list_title=…)`, with `list_title` optional). -/
structure Task where
  id : String
  title : String
  done : Bool
  list_title : Option String := none
deriving Repr, DecidableEq

/-- The timer triple `(active, title, started)` kept by every backend and
returned by `get_active_timer`. -/
structure TimerState where
  active : Bool
  title : String
  started : Int
deriving Repr, DecidableEq

/-- Spec section 3 invariant on Timer State: `active == false` implies
`title == ""` and `started == 0`. -/
def timerInv (s : TimerState) : Prop :=
  s.active = false → s.title = "" ∧ s.started = 0

instance (s : TimerState) : Decidable (timerInv s) := by
  unfold timerInv; infer_instance

namespace LocalJson

/-- `LocalJsonBackend.start_timer`: if a different-titled timer is active it
is first deactivated and that state persisted; then all three fields are set
and persisted again.  Returns the final timer state together with the list
of snapshots persisted by `_save_timer`, in order. -/
def start_timer (s : TimerState) (title : String) (started_ts : Int) :
    TimerState × List TimerState :=
  if s.active && s.title != title then
    let s1 : TimerState := { s with active := false }
    let s2 : TimerState := ⟨true, title, started_ts⟩
    (s2, [s1, s2])
  else
    let s2 : TimerState := ⟨true, title, started_ts⟩
    (s2, [s2])

/-- `LocalJsonBackend.stop_timer`: unconditionally clears all three fields
and persists once.  The `ended_ts` argument is unused by the source. -/
def stop_timer (_ended_ts : Int) (_s : TimerState) :
    TimerState × List TimerState :=
  (⟨false, "", 0⟩, [⟨false, "", 0⟩])

end LocalJson

/-- A calendar event written by `_write_time_slot` (start, end, summary). -/
structure Event where
  start_ts : Int
  end_ts : Int
  summary : String
deriving Repr, DecidableEq

/-- Error taxonomy relevant to interval recording: `validation` is the
`ValueError` raised by `_write_time_slot`, `backend` an upstream calendar
failure. -/
inductive TError where
  | validation
  | backend
deriving Repr, DecidableEq

/-- `_write_time_slot` (google.py): raises `ValueError` when
`end_ts <= start_ts`, before any calendar call; otherwise performs the
calendar insert, whose possible upstream failure is modelled by the
`calendarOk` flag. -/
def write_time_slot (calendarOk : Bool) (start_ts end_ts : Int)
    (summary : String) : Except TError Event :=
  if end_ts ≤ start_ts then .error .validation
  else if calendarOk then .ok ⟨start_ts, end_ts, summary⟩
  else .error .backend

/-- GoogleBackend timer-related state: the timer triple, the calendar events
recorded so far, and the persisted snapshots in order. -/
structure GTimer where
  timer : TimerState
  events : List Event
  snapshots : List TimerState
deriving Repr, DecidableEq

namespace Google

/-- `GoogleBackend.start_timer`: textually the same body as the local
backend (deactivate-and-persist when a different-titled timer is active,
then set and persist); it performs no calendar write. -/
def start_timer (g : GTimer) (title : String) (started_ts : Int) : GTimer :=
  if g.timer.active && g.timer.title != title then
    let t1 : TimerState := { g.timer with active := false }
    let t2 : TimerState := ⟨true, title, started_ts⟩
    { timer := t2, events := g.events, snapshots := g.snapshots ++ [t1, t2] }
  else
    let t2 : TimerState := ⟨true, title, started_ts⟩
    { timer := t2, events := g.events, snapshots := g.snapshots ++ [t2] }

/-- `GoogleBackend.stop_timer`: when a timer is active with positive start,
tries `_write_time_slot` (summary defaults to "taskanov: work" when the
title is empty) and swallows any exception; then unconditionally clears the
timer and persists. -/
def stop_timer (calendarOk : Bool) (g : GTimer) (ended_ts : Int) : GTimer :=
  let recorded : List Event :=
    if g.timer.active && decide (0 < g.timer.started) then
      match write_time_slot calendarOk g.timer.started ended_ts
          (if g.timer.title = "" then "taskanov: work" else g.timer.title) with
      | .ok ev => [ev]
      | .error _ => []
    else []
  { timer := ⟨false, "", 0⟩,
    events := g.events ++ recorded,
    snapshots := g.snapshots ++ [⟨false, "", 0⟩] }

end Google

/-- Scan loop shared by both backends' `ensure`: the first cache entry with
exactly this title and `done == false`, if any (`for t in self._cache: if
t.title == title and not t.done: return t`). -/
def findOpenWithTitle (title : String) : List Task → Option Task
  | [] => none
  | t :: ts =>
    if t.title == title && !t.done then some t
    else findOpenWithTitle title ts

/-- Fresh-id supply standing in for `uuid.uuid4()` / the id returned by the
remote task insert: opaque, injective in the counter. -/
def freshId (n : Nat) : String := "id-" ++ toString n

/-- LocalJsonBackend task store: the in-memory cache plus the fresh-id
counter. -/
structure LocalStore where
  cache : List Task
  nextId : Nat
deriving Repr, DecidableEq

namespace LocalJson

/-- `LocalJsonBackend.ensure`: return an existing open task with the same
title, otherwise create `Task(id=uuid4, title=title, done=False)`, append it
to the cache and persist. -/
def ensure (title : String) (s : LocalStore) : Task × LocalStore :=
  match findOpenWithTitle title s.cache with
  | some t => (t, s)
  | none =>
    let nt : Task := { id := freshId s.nextId, title := title, done := false }
    (nt, { cache := s.cache ++ [nt], nextId := s.nextId + 1 })

end LocalJson

/-- GoogleBackend task store: cache, the default tasklist id used for
creation, and the fresh-id supply for remotely created item ids. -/
structure GStore where
  cache : List Task
  defaultList : String
  nextId : Nat
deriving Repr, DecidableEq

namespace Google

/-- `GoogleBackend.ensure`: same scan as the local backend; on a miss it
inserts a task into the default list and caches
`Task(id=f"{list_id}::{created_id}", title=title, done=False)`. -/
def ensure (title : String) (s : GStore) : Task × GStore :=
  match findOpenWithTitle title s.cache with
  | some t => (t, s)
  | none =>
    let gid := s.defaultList ++ "::" ++ freshId s.nextId
    let nt : Task := { id := gid, title := title, done := false }
    (nt, { s with cache := s.cache ++ [nt], nextId := s.nextId + 1 })

end Google

/-- Lower-cased character sequence of a string, as both `_filtered_open`
and `_filtered_done` compute it via `.lower()` before substring testing. -/
def lowerChars (s : String) : List Char := s.toList.map Char.toLower

/-- Python's `needle in hay` on the lower-cased strings: contiguous
substring containment. -/
def containsCI (hay needle : String) : Bool :=
  decide (lowerChars needle <:+: lowerChars hay)

/-- Open-pane filter predicate of `TaskTUI._filtered_open` (for a nonempty
filter): title matches, or `list_title` is present, truthy (nonempty) and
matches. -/
def matchesOpen (ft : String) (t : Task) : Bool :=
  containsCI t.title ft ||
    (match t.list_title with
     | some l => !(l == "") && containsCI l ft
     | none => false)

/-- `TaskTUI._filtered_open`: all items when the filter text is falsy
(empty), else the matching ones. -/
def filtered_open (ft : String) (items : List Task) : List Task :=
  if ft == "" then items else items.filter (matchesOpen ft)

/-- `TaskTUI._filtered_done`: like the open pane but matching the title
only. -/
def filtered_done (ft : String) (items : List Task) : List Task :=
  if ft == "" then items else items.filter (fun t => containsCI t.title ft)

/-- Claim-side predicate for the open pane, following the spec's words:
the task's title contains the filter text as a case-insensitive substring,
or its group label does. -/
def specMatchOpen (ft : String) (t : Task) : Prop :=
  lowerChars ft <:+: lowerChars t.title ∨
    ∃ l, t.list_title = some l ∧ lowerChars ft <:+: lowerChars l

/-- Claim-side predicate for the done pane: title containment only. -/
def specMatchDone (ft : String) (t : Task) : Prop :=
  lowerChars ft <:+: lowerChars t.title

/-- A desktop notification request (title and message passed to
`notify`). -/
structure Notification where
  title : String
  message : String
deriving Repr, DecidableEq

/-- The notification chosen by one iteration of `TickerNotifier._run` from
the `get_active_timer()` triple it read. -/
def tick_notification (t : TimerState) : Notification :=
  if !t.active then
    ⟨"taskanov", "What are you working on? Open Taskanov"⟩
  else
    ⟨"taskanov", "Are you still working on " ++ t.title ++ "?"⟩

/-- `TickerNotifier.__init__`'s default `interval` argument, in seconds. -/
def tickerDefaultInterval : ℚ := 1

/-- The interval the CLI passes when constructing the notifier for the
`tui` command: `TickerNotifier(backend, interval=60*5)`. -/
def cliTickerInterval : ℚ := 60 * 5

/-- The `timeout` argument of the `join` inside `TickerNotifier.stop`. -/
def joinTimeoutSeconds : Nat := 2

/-- Control point of the background thread running `TickerNotifier._run`:
inside `self._stop.wait(self.interval)`, inside the loop body (between a
wait that returned False and the completion of its `notify` call), or
exited. -/
inductive ThreadPC where
  | waiting
  | body
  | done
deriving Repr, DecidableEq

/-- Interleaving state of the notifier and the foreground thread calling
`stop()`: the stop event, the background thread's control point, the shared
store's timer (read-only for the notifier), the notifications dispatched so
far, and whether `stop()` has returned. -/
structure TickerSys where
  stopFlag : Bool
  pc : ThreadPC
  store : TimerState
  sent : List Notification
  stopReturned : Bool
deriving Repr, DecidableEq

/-- Small-step interleaving semantics of `TickerNotifier`.
`waitExit`/`waitTick` are the two outcomes of `self._stop.wait(interval)`
(the loop exits when the event is set, enters the body when the wait times
out with the event unset); `bodyRun` completes one loop body, reading
`get_active_timer()` and dispatching exactly one notification; `stopSet` is
`stop()` setting the event; `joinReturn` is `stop()`'s
`self._thr.join(timeout=2)` returning — with a bounded timeout it may
return whether or not the thread has exited. -/
inductive TickerStep : TickerSys → TickerSys → Prop where
  | waitExit (s : TickerSys) (h1 : s.pc = ThreadPC.waiting)
      (h2 : s.stopFlag = true) :
      TickerStep s { s with pc := ThreadPC.done }
  | waitTick (s : TickerSys) (h1 : s.pc = ThreadPC.waiting)
      (h2 : s.stopFlag = false) :
      TickerStep s { s with pc := ThreadPC.body }
  | bodyRun (s : TickerSys) (h1 : s.pc = ThreadPC.body) :
      TickerStep s { s with pc := ThreadPC.waiting,
                            sent := s.sent ++ [tick_notification s.store] }
  | stopSet (s : TickerSys) (h1 : s.stopFlag = false) :
      TickerStep s { s with stopFlag := true }
  | joinReturn (s : TickerSys) (h1 : s.stopFlag = true)
      (h2 : s.stopReturned = false) :
      TickerStep s { s with stopReturned := true }

/-- The system right after `start()`: event clear, thread in its first
wait, nothing sent, `stop()` not yet called, no active timer. -/
def tickerInit : TickerSys :=
  ⟨false, ThreadPC.waiting, ⟨false, "", 0⟩, [], false⟩

/-! ## Helper lemmas -/

theorem string_eq_empty_of_toList_nil (s : String) (h : s.toList = []) :
    s = "" := by
  cases s with
  | mk data =>
    cases data with
    | nil => rfl
    | cons a as => simp [String.toList] at h

theorem lowerChars_empty : lowerChars "" = [] := rfl

theorem lowerChars_eq_nil (s : String) (h : lowerChars s = []) : s = "" := by
  unfold lowerChars at h
  exact string_eq_empty_of_toList_nil s (by simpa using h)

theorem not_infix_nil_of_ne_empty (ft : String) (h : ft ≠ "") :
    ¬ lowerChars ft <:+: ([] : List Char) := fun hinf =>
  h (lowerChars_eq_nil ft (List.eq_nil_of_infix_nil hinf))

theorem google_start_timer_timer (g : GTimer) (title : String) (ts : Int) :
    (Google.start_timer g title ts).timer = ⟨true, title, ts⟩ := by
  unfold Google.start_timer
  split <;> rfl

theorem google_start_timer_events (g : GTimer) (title : String) (ts : Int) :
    (Google.start_timer g title ts).events = g.events := by
  unfold Google.start_timer
  split <;> rfl

theorem local_start_timer_fst (s : TimerState) (title : String) (ts : Int) :
    (LocalJson.start_timer s title ts).1 = ⟨true, title, ts⟩ := by
  unfold LocalJson.start_timer
  split <;> rfl

/-! ## Claim theorems -/

/-- C3: for every backend and every `ended_ts`, `stop_timer` always ends
with `active = false`, `title = ""`, `started = 0`, regardless of whether
the external interval-recording call succeeds (`calendarOk` covers both
outcomes; the source's `except` swallows the failure, which the totality of
the embedded function reflects): timer clearing is unconditional. -/
theorem stop_timer_unconditional (calendarOk : Bool) (g : GTimer)
    (ended_ts : Int) (s : TimerState) (ended_ts2 : Int) :
    (Google.stop_timer calendarOk g ended_ts).timer = ⟨false, "", 0⟩ ∧
    (LocalJson.stop_timer ended_ts2 s).1 = ⟨false, "", 0⟩ :=
  ⟨rfl, rfl⟩

/-- C4: an interval whose end timestamp is not strictly after its start is
rejected by `_write_time_slot` with the `ValueError` (ValidationError),
raised before any calendar call, and no event is written — in particular a
`stop_timer` whose `ended_ts` does not exceed the recorded start leaves the
recorded events unchanged.  Nothing is clamped. -/
theorem write_time_slot_rejects (calendarOk : Bool) (start_ts end_ts : Int)
    (summary : String) (g : GTimer)
    (h : end_ts ≤ start_ts) (h2 : end_ts ≤ g.timer.started) :
    write_time_slot calendarOk start_ts end_ts summary =
      Except.error TError.validation ∧
    (Google.stop_timer calendarOk g end_ts).events = g.events := by
  constructor
  · simp [write_time_slot, h]
  · unfold Google.stop_timer
    split
    · simp [write_time_slot, h2]
    · simp

/-- C4 witness: the rejection at the concrete interval `[100, 60]`. -/
theorem write_time_slot_rejects_witness :
    write_time_slot true 100 60 "A" = Except.error TError.validation ∧
    (Google.stop_timer true ⟨⟨true, "A", 100⟩, [], []⟩ 60).events = [] :=
  write_time_slot_rejects true 100 60 "A" ⟨⟨true, "A", 100⟩, [], []⟩
    (by norm_num) (by norm_num)

/-- C5 counterexample: the claim says the scheduler period defaults to 300
seconds when no interval is configured, but the `TickerNotifier.__init__`
default is `interval=1.0`. -/
theorem ticker_default_counterexample : tickerDefaultInterval ≠ 300 := by
  norm_num [tickerDefaultInterval]

/-- C5 amended: the constructor's default interval is 1.0 second; the
five-minute period comes from the CLI, which constructs the notifier with
`interval=60*5` = 300 seconds. -/
theorem ticker_interval_amended :
    tickerDefaultInterval = 1 ∧ cliTickerInterval = 300 := by
  norm_num [tickerDefaultInterval, cliTickerInterval]

/-- C10: restarting the timer on the already-active title overwrites only
the start timestamp: the result is `active = true, title = T, started = t2`,
exactly one snapshot (the final state) is persisted — so no intermediate
deactivation — and the Google backend records no interval; the earlier
start time `t1` survives nowhere. -/
theorem start_timer_same_title (T : String) (t1 t2 : Int)
    (evs : List Event) (snaps : List TimerState) :
    LocalJson.start_timer ⟨true, T, t1⟩ T t2 =
      (⟨true, T, t2⟩, [⟨true, T, t2⟩]) ∧
    Google.start_timer ⟨⟨true, T, t1⟩, evs, snaps⟩ T t2 =
      ⟨⟨true, T, t2⟩, evs, snaps ++ [⟨true, T, t2⟩]⟩ := by
  constructor
  · simp [LocalJson.start_timer]
  · simp [Google.start_timer]

/-- C1 counterexample: with a timer active on "A" since 100, `start_timer`
with the different title "B" persists the intermediate snapshot
`(active=False, title="A", started=100)` (both backends), and that snapshot
violates the invariant `active == false → title == "" ∧ started == 0`: a
reader of the persisted state can observe a partially-updated Timer
State. -/
theorem timer_snapshot_counterexample :
    (⟨false, "A", 100⟩ : TimerState) ∈
      (LocalJson.start_timer ⟨true, "A", 100⟩ "B" 200).2 ∧
    (⟨false, "A", 100⟩ : TimerState) ∈
      (Google.start_timer ⟨⟨true, "A", 100⟩, [], []⟩ "B" 200).snapshots ∧
    ¬ timerInv ⟨false, "A", 100⟩ := by
  refine ⟨?_, ?_, by decide⟩ <;> simp [LocalJson.start_timer, Google.start_timer]

/-- C1 amended: the invariant holds at every operation boundary — the final
states of `start_timer` and `stop_timer` satisfy it, as does the snapshot
`stop_timer` persists — but the three fields do not update as one atomic
unit: when `start_timer` switches away from an active, differently-titled,
nonempty-titled timer, both backends persist one intermediate snapshot with
`active = false` and the old title and start time, which violates the
invariant. -/
theorem timer_invariant_amended (s : TimerState) (title : String)
    (ts ended : Int) (evs : List Event) (snaps : List TimerState)
    (h1 : s.active = true) (h2 : s.title ≠ title) (h3 : s.title ≠ "") :
    timerInv (LocalJson.start_timer s title ts).1 ∧
    timerInv (LocalJson.stop_timer ended s).1 ∧
    (∀ snap ∈ (LocalJson.stop_timer ended s).2, timerInv snap) ∧
    timerInv (Google.start_timer ⟨s, evs, snaps⟩ title ts).timer ∧
    timerInv (Google.stop_timer true ⟨s, evs, snaps⟩ ended).timer ∧
    (∃ snap ∈ (LocalJson.start_timer s title ts).2, ¬ timerInv snap) ∧
    (∃ snap ∈ (Google.start_timer ⟨s, evs, snaps⟩ title ts).snapshots,
        ¬ timerInv snap) := by
  have hcond : (s.active && s.title != title) = true := by
    simp [h1, bne_iff_ne, h2]
  have hbad : ¬ timerInv { s with active := false } := fun hinv =>
    h3 (hinv rfl).1
  refine ⟨?_, ?_, ?_, ?_, ?_, ?_, ?_⟩
  · rw [local_start_timer_fst]
    intro hfalse
    exact Bool.noConfusion hfalse
  · intro hfalse
    exact ⟨rfl, rfl⟩
  · intro snap hsnap
    simp [LocalJson.stop_timer] at hsnap
    subst hsnap
    intro hfalse
    exact ⟨rfl, rfl⟩
  · rw [google_start_timer_timer]
    intro hfalse
    exact Bool.noConfusion hfalse
  · intro hfalse
    exact ⟨rfl, rfl⟩
  · refine ⟨{ s with active := false }, ?_, hbad⟩
    simp [LocalJson.start_timer, hcond]
  · refine ⟨{ s with active := false }, ?_, hbad⟩
    simp [Google.start_timer, hcond]

/-- C1 amended witness, at the concrete switch from ("A", 100) to
("B", 200). -/
theorem timer_invariant_amended_witness :
    (⟨true, "A", 100⟩ : TimerState).title ≠ "B" ∧
    (∃ snap ∈ (LocalJson.start_timer ⟨true, "A", 100⟩ "B" 200).2,
        ¬ timerInv snap) :=
  ⟨by decide,
   (timer_invariant_amended ⟨true, "A", 100⟩ "B" 200 300 [] []
      rfl (by decide) (by decide)).2.2.2.2.2.1⟩

/-- C2 counterexample: starting "A" at 100 and then "B" at 200 on the
Google backend ends in the claimed timer state, but no interval for "A" is
recorded at all — `GoogleBackend.start_timer` never closes out the previous
interval; recording happens only in `stop_timer`. -/
theorem start_switch_counterexample :
    (Google.start_timer
        (Google.start_timer ⟨⟨false, "", 0⟩, [], []⟩ "A" 100) "B" 200).timer
      = ⟨true, "B", 200⟩ ∧
    (Google.start_timer
        (Google.start_timer ⟨⟨false, "", 0⟩, [], []⟩ "A" 100) "B" 200).events
      = [] ∧
    ¬ ∃ ev ∈ (Google.start_timer
        (Google.start_timer ⟨⟨false, "", 0⟩, [], []⟩ "A" 100) "B" 200).events,
        ev.summary = "A" ∧ ev.end_ts = 200 := by
  refine ⟨by decide, by decide, ?_⟩
  have hnil : (Google.start_timer
      (Google.start_timer ⟨⟨false, "", 0⟩, [], []⟩ "A" 100) "B" 200).events
      = [] := by decide
  rintro ⟨ev, hev, -⟩
  rw [hnil] at hev
  exact absurd hev (List.not_mem_nil ev)

/-- C2 amended: `start_timer(A, t1)` followed by `start_timer(B, t2)` with
`B ≠ A` leaves `active = true, title = B, started = t2` on both backends,
but neither backend records an interval inside `start_timer` — the Google
backend's events are unchanged; the previous interval is recorded only when
`stop_timer` is called between the two starts (then the "A" interval
`[t1, t2]` is written). -/
theorem start_switch_amended (A B : String) (t1 t2 : Int)
    (g : GTimer) (s : TimerState)
    (hAB : A ≠ B) (h1 : 0 < t1) (h2 : t1 < t2) (hA : A ≠ "") :
    (LocalJson.start_timer (LocalJson.start_timer s A t1).1 B t2).1
      = ⟨true, B, t2⟩ ∧
    (Google.start_timer (Google.start_timer g A t1) B t2).timer
      = ⟨true, B, t2⟩ ∧
    (Google.start_timer (Google.start_timer g A t1) B t2).events
      = g.events ∧
    (Google.stop_timer true (Google.start_timer g A t1) t2).events
      = g.events ++ [⟨t1, t2, A⟩] := by
  refine ⟨local_start_timer_fst _ B t2, google_start_timer_timer _ B t2,
    ?_, ?_⟩
  · rw [google_start_timer_events, google_start_timer_events]
  · unfold Google.stop_timer
    rw [google_start_timer_timer, google_start_timer_events]
    have hcond : ((⟨true, A, t1⟩ : TimerState).active &&
        decide (0 < (⟨true, A, t1⟩ : TimerState).started)) = true := by
      simp [h1]
    rw [if_pos hcond]
    have hnotle : ¬ t2 ≤ t1 := not_le.mpr h2
    simp [write_time_slot, hnotle, hA]

/-- C2 amended witness: the stop-then-start switch at concrete values. -/
theorem start_switch_amended_witness :
    (Google.start_timer
        (Google.start_timer ⟨⟨false, "", 0⟩, [], []⟩ "A" 100) "B" 200).timer
      = ⟨true, "B", 200⟩ ∧
    (Google.stop_timer true
        (Google.start_timer ⟨⟨false, "", 0⟩, [], []⟩ "A" 100) 200).events
      = [] ++ [⟨100, 200, "A"⟩] :=
  ⟨(start_switch_amended "A" "B" 100 200 ⟨⟨false, "", 0⟩, [], []⟩
      ⟨false, "", 0⟩ (by decide) (by norm_num) (by norm_num) (by decide)).2.1,
   (start_switch_amended "A" "B" 100 200 ⟨⟨false, "", 0⟩, [], []⟩
      ⟨false, "", 0⟩ (by decide) (by norm_num) (by norm_num) (by decide)).2.2.2⟩

/-- C6 counterexample: because `stop()` joins the thread with a bounded
2-second timeout, it can return while a loop body is still in flight; in
the interleaving model there is a reachable state in which `stop()` has
returned and a subsequent step still dispatches a notification — so "no
further tick fires after stop() returns" fails as stated. -/
theorem ticker_stop_counterexample :
    ¬ (∀ s t : TickerSys, Relation.ReflTransGen TickerStep tickerInit s →
        s.stopReturned = true → TickerStep s t → t.sent = s.sent) := by
  intro hclaim
  have r1 : TickerStep tickerInit
      ⟨false, ThreadPC.body, ⟨false, "", 0⟩, [], false⟩ :=
    TickerStep.waitTick tickerInit rfl rfl
  have r2 : TickerStep ⟨false, ThreadPC.body, ⟨false, "", 0⟩, [], false⟩
      ⟨true, ThreadPC.body, ⟨false, "", 0⟩, [], false⟩ :=
    TickerStep.stopSet _ rfl
  have r3 : TickerStep ⟨true, ThreadPC.body, ⟨false, "", 0⟩, [], false⟩
      ⟨true, ThreadPC.body, ⟨false, "", 0⟩, [], true⟩ :=
    TickerStep.joinReturn _ rfl rfl
  have reach : Relation.ReflTransGen TickerStep tickerInit
      ⟨true, ThreadPC.body, ⟨false, "", 0⟩, [], true⟩ :=
    Relation.ReflTransGen.head r1 (Relation.ReflTransGen.head r2
      (Relation.ReflTransGen.head r3 Relation.ReflTransGen.refl))
  have hlate := hclaim _ _ reach rfl
    (TickerStep.bodyRun ⟨true, ThreadPC.body, ⟨false, "", 0⟩, [], true⟩ rfl)
  exact absurd hlate (by decide)

/-- C6 amended: `stop()` sets the stop event and joins with a 2-second
timeout, so once the event is set no loop iteration passes the wait again:
from any state in which the event is set and the thread is not already
inside a loop body, no run of the system ever dispatches another
notification.  A body already in flight when `stop()` is called, however,
may still dispatch its one notification after the bounded join lets
`stop()` return. -/
theorem ticker_stop_amended (s t : TickerSys)
    (hflag : s.stopFlag = true) (hpc : s.pc ≠ ThreadPC.body)
    (h : Relation.ReflTransGen TickerStep s t) :
    t.sent = s.sent ∧ joinTimeoutSeconds = 2 := by
  have key : t.stopFlag = true ∧ t.pc ≠ ThreadPC.body ∧ t.sent = s.sent := by
    induction h with
    | refl => exact ⟨hflag, hpc, rfl⟩
    | tail hab hstep ih =>
      obtain ⟨hf, hp, hs⟩ := ih
      cases hstep with
      | waitExit h1 h2 =>
        refine ⟨hf, ?_, hs⟩
        intro hx
        exact ThreadPC.noConfusion hx
      | waitTick h1 h2 =>
        rw [hf] at h2
        exact Bool.noConfusion h2
      | bodyRun h1 => exact absurd h1 hp
      | stopSet h1 =>
        rw [hf] at h1
        exact Bool.noConfusion h1
      | joinReturn h1 h2 => exact ⟨hf, hp, hs⟩
  exact ⟨key.2.2, rfl⟩

/-- C6 amended witness: a stopped, not-mid-body system takes no further
step that sends, applied via the reflexive run. -/
theorem ticker_stop_amended_witness :
    ([] : List Notification) = [] ∧ joinTimeoutSeconds = 2 :=
  ticker_stop_amended ⟨true, ThreadPC.waiting, ⟨false, "", 0⟩, [], false⟩
    ⟨true, ThreadPC.waiting, ⟨false, "", 0⟩, [], false⟩
    rfl (by decide) Relation.ReflTransGen.refl

/-- C7: no step of the notifier mutates the shared store; a step dispatches
at most one notification; a completed loop body dispatches exactly the one
notification computed from the `get_active_timer()` triple it read; and
that notification is the generic "what are you working on?" reminder when
no timer is active, and names the active title otherwise. -/
theorem ticker_tick_behavior :
    (∀ s t : TickerSys, TickerStep s t → t.store = s.store) ∧
    (∀ s t : TickerSys, TickerStep s t →
        t.sent = s.sent ∨ t.sent = s.sent ++ [tick_notification s.store]) ∧
    (∀ s t : TickerSys, TickerStep s t → s.pc = ThreadPC.body →
        t.pc = ThreadPC.waiting →
        t.sent = s.sent ++ [tick_notification s.store]) ∧
    (∀ u : TimerState, u.active = false →
        tick_notification u =
          ⟨"taskanov", "What are you working on? Open Taskanov"⟩) ∧
    (∀ u : TimerState, u.active = true →
        tick_notification u =
          ⟨"taskanov", "Are you still working on " ++ u.title ++ "?"⟩) := by
  refine ⟨?_, ?_, ?_, ?_, ?_⟩
  · intro s t hstep
    cases hstep <;> rfl
  · intro s t hstep
    cases hstep with
    | bodyRun h1 => exact Or.inr rfl
    | waitExit h1 h2 => exact Or.inl rfl
    | waitTick h1 h2 => exact Or.inl rfl
    | stopSet h1 => exact Or.inl rfl
    | joinReturn h1 h2 => exact Or.inl rfl
  · intro s t hstep hbody hwait
    cases hstep with
    | bodyRun h1 => rfl
    | waitExit h1 h2 =>
      rw [hbody] at h1
      exact ThreadPC.noConfusion h1
    | waitTick h1 h2 =>
      rw [hbody] at h1
      exact ThreadPC.noConfusion h1
    | stopSet h1 =>
      rw [hbody] at hwait
      exact ThreadPC.noConfusion hwait
    | joinReturn h1 h2 =>
      rw [hbody] at hwait
      exact ThreadPC.noConfusion hwait
  · intro u hu
    simp [tick_notification, hu]
  · intro u hu
    simp [tick_notification, hu]

/-- C7 witness: the two notification texts at concrete timers, and store
preservation across a concrete step. -/
theorem ticker_tick_behavior_witness :
    ((⟨true, ThreadPC.waiting, ⟨false, "", 0⟩, [], false⟩ : TickerSys).store
      = tickerInit.store) ∧
    tick_notification ⟨false, "", 0⟩ =
      ⟨"taskanov", "What are you working on? Open Taskanov"⟩ ∧
    tick_notification ⟨true, "Write report", 7⟩ =
      ⟨"taskanov", "Are you still working on " ++ "Write report" ++ "?"⟩ :=
  ⟨ticker_tick_behavior.1 tickerInit _ (TickerStep.stopSet tickerInit rfl),
   ticker_tick_behavior.2.2.2.1 ⟨false, "", 0⟩ rfl,
   ticker_tick_behavior.2.2.2.2 ⟨true, "Write report", 7⟩ rfl⟩

theorem findOpenWithTitle_append_all_done (title : String)
    (l l2 : List Task) (h : ∀ t ∈ l, t.done = true) :
    findOpenWithTitle title (l ++ l2) = findOpenWithTitle title l2 := by
  induction l with
  | nil => rfl
  | cons a as ih =>
    have ha : a.done = true := h a (by simp)
    have hrest : ∀ t ∈ as, t.done = true := fun t ht => h t (by simp [ht])
    simp [findOpenWithTitle, ha, ih hrest]

theorem findOpenWithTitle_none_all_done (title : String) (l : List Task)
    (h : ∀ t ∈ l, t.done = true) : findOpenWithTitle title l = none := by
  have happ := findOpenWithTitle_append_all_done title l [] h
  simpa using happ

/-- C8: calling `ensure(title)` twice on a store whose open set is empty
returns the same task both times (in particular the same id): the first
call creates an open task (`done = false`), the second finds that open task
and returns it with the store unchanged — no second creation.  Holds for
both backends. -/
theorem ensure_idempotent (title : String) (s : LocalStore) (g : GStore)
    (hs : ∀ t ∈ s.cache, t.done = true) (hg : ∀ t ∈ g.cache, t.done = true) :
    (LocalJson.ensure title s).1.done = false ∧
    (LocalJson.ensure title (LocalJson.ensure title s).2).1
      = (LocalJson.ensure title s).1 ∧
    (LocalJson.ensure title (LocalJson.ensure title s).2).1.id
      = (LocalJson.ensure title s).1.id ∧
    (LocalJson.ensure title (LocalJson.ensure title s).2).2
      = (LocalJson.ensure title s).2 ∧
    (Google.ensure title g).1.done = false ∧
    (Google.ensure title (Google.ensure title g).2).1
      = (Google.ensure title g).1 ∧
    (Google.ensure title (Google.ensure title g).2).1.id
      = (Google.ensure title g).1.id ∧
    (Google.ensure title (Google.ensure title g).2).2
      = (Google.ensure title g).2 := by
  have hn1 : findOpenWithTitle title s.cache = none :=
    findOpenWithTitle_none_all_done title s.cache hs
  have hn2 : findOpenWithTitle title g.cache = none :=
    findOpenWithTitle_none_all_done title g.cache hg
  have hf1 : findOpenWithTitle title
      (s.cache ++ [{ id := freshId s.nextId, title := title, done := false }])
      = some { id := freshId s.nextId, title := title, done := false } := by
    rw [findOpenWithTitle_append_all_done title s.cache _ hs]
    simp [findOpenWithTitle]
  have hf2 : findOpenWithTitle title
      (g.cache ++ [{ id := g.defaultList ++ "::" ++ freshId g.nextId,
                     title := title, done := false }])
      = some { id := g.defaultList ++ "::" ++ freshId g.nextId,
               title := title, done := false } := by
    rw [findOpenWithTitle_append_all_done title g.cache _ hg]
    simp [findOpenWithTitle]
  refine ⟨?_, ?_, ?_, ?_, ?_, ?_, ?_, ?_⟩ <;>
    simp [LocalJson.ensure, Google.ensure, hn1, hn2, hf1, hf2]

/-- C8 witness: twice ensuring "Buy milk" on empty stores. -/
theorem ensure_idempotent_witness :
    (LocalJson.ensure "Buy milk" ⟨[], 0⟩).1.done = false ∧
    (LocalJson.ensure "Buy milk" (LocalJson.ensure "Buy milk" ⟨[], 0⟩).2).1.id
      = (LocalJson.ensure "Buy milk" ⟨[], 0⟩).1.id ∧
    (Google.ensure "Buy milk" (Google.ensure "Buy milk" ⟨[], "L", 0⟩).2).1.id
      = (Google.ensure "Buy milk" ⟨[], "L", 0⟩).1.id :=
  ⟨(ensure_idempotent "Buy milk" ⟨[], 0⟩ ⟨[], "L", 0⟩ (by simp) (by simp)).1,
   (ensure_idempotent "Buy milk" ⟨[], 0⟩ ⟨[], "L", 0⟩
      (by simp) (by simp)).2.2.1,
   (ensure_idempotent "Buy milk" ⟨[], 0⟩ ⟨[], "L", 0⟩
      (by simp) (by simp)).2.2.2.2.2.2.1⟩

theorem matchesOpen_iff (ft : String) (t : Task) (h : ft ≠ "") :
    matchesOpen ft t = true ↔ specMatchOpen ft t := by
  unfold matchesOpen specMatchOpen containsCI
  cases hl : t.list_title with
  | none => simp
  | some l =>
    by_cases hle : l = ""
    · subst hle
      simp only [beq_self_eq_true, Bool.not_true, Bool.false_and,
        Bool.or_false, decide_eq_true_eq]
      constructor
      · exact fun hh => Or.inl hh
      · rintro (hh | ⟨l2, hl2, hinf⟩)
        · exact hh
        · cases hl2
          exact absurd hinf (not_infix_nil_of_ne_empty ft h)
    · have hbeq : (l == "") = false := by
        simp [hle]
      simp [hbeq]

/-- C9: for every filter text, `_filtered_open` keeps exactly the tasks
whose title contains the filter as a case-insensitive substring or whose
group label (`list_title`) does, and `_filtered_done` keeps exactly the
tasks whose title contains it — membership in each pane's filtered view is
characterised by these predicates and nothing else. -/
theorem filter_membership (ft : String) (items : List Task) (t : Task) :
    (t ∈ filtered_open ft items ↔ t ∈ items ∧ specMatchOpen ft t) ∧
    (t ∈ filtered_done ft items ↔ t ∈ items ∧ specMatchDone ft t) := by
  by_cases h : ft = ""
  · subst h
    unfold filtered_open filtered_done
    simp only [beq_self_eq_true, if_true]
    constructor
    · constructor
      · intro hm
        exact ⟨hm, Or.inl List.nil_infix⟩
      · exact fun hm => hm.1
    · constructor
      · intro hm
        exact ⟨hm, List.nil_infix⟩
      · exact fun hm => hm.1
  · have hbeq : (ft == "") = false := by simp [h]
    unfold filtered_open filtered_done
    rw [hbeq]
    simp only [Bool.false_eq_true, if_false, List.mem_filter]
    constructor
    · rw [matchesOpen_iff ft t h]
    · unfold specMatchDone containsCI
      simp

end Taskanov
